import Mathlib

/-!
Verification of the two-stage battery trading optimiser
(`da_optimiser.py`, class `BatteryOptimizer`).

The LPs built by `optimize_day_ahead` and `optimize_intra_day` are embedded
as feasibility predicates over rational-valued assignments of the pyomo
decision variables, and the class's stateful staging logic is embedded as a
state record with optional solution attributes, with Python exceptions
modelled by an error type.
-/

namespace BatteryTrading

/-- Battery parameters stored by `BatteryOptimizer.__init__`. -/
structure BatteryParams where
  power : ℚ
  capacity : ℚ
  charging_efficiency : ℚ
  discharging_efficiency : ℚ
  daily_cycles : ℚ
  initial_soc : ℚ
deriving DecidableEq

/-- One stage's pyomo decision variables: `flow_in`, `flow_out`, the net
traded volume `v`, and the state of charge (`soc` in the day-ahead model,
`soc_total` in the intra-day model), indexed by settlement period. -/
structure StageVars where
  flow_in : ℕ → ℚ
  flow_out : ℕ → ℚ
  v : ℕ → ℚ
  soc : ℕ → ℚ

/-- The pyomo objective `quicksum(v[t] * prices[t] for t in time)` of either
stage, evaluated at an assignment. -/
def stageObjective (prices : List ℚ) (nPeriods : ℕ) (x : StageVars) : ℚ :=
  (Finset.range nPeriods).sum (fun t => x.v t * prices.getD t 0)

/-- The feasible set of the day-ahead model built by `optimize_day_ahead`:
variable domains (`NonNegativeReals` for flows and soc), `energy_rule_da`,
the power bounds, `soc_bound_da`, `cycling_limit_da`, `soc_rule_da`
(initial condition at `t = 0`, update rule at `t > 0`), `final_soc_da`
(at `last = max(model.time)`), and `hourly_consistency` (skipped when the
second half-hour `2*h+1` is outside the time grid). -/
def DAFeasible (p : BatteryParams) (nPeriods : ℕ) (x : StageVars) : Prop :=
  (∀ t < nPeriods, 0 ≤ x.flow_in t) ∧
  (∀ t < nPeriods, 0 ≤ x.flow_out t) ∧
  (∀ t < nPeriods, 0 ≤ x.soc t) ∧
  (∀ t < nPeriods, x.v t = x.flow_out t - x.flow_in t) ∧
  (∀ t < nPeriods, x.flow_out t ≤ p.power) ∧
  (∀ t < nPeriods, x.flow_in t ≤ p.power) ∧
  (∀ t < nPeriods, x.soc t ≤ p.capacity) ∧
  ((Finset.range nPeriods).sum (fun t => x.flow_out t) ≤
    p.daily_cycles * p.capacity) ∧
  (∀ t < nPeriods, t = 0 → x.soc t = p.initial_soc) ∧
  (∀ t < nPeriods, 0 < t →
    x.soc t = x.soc (t - 1)
      - x.flow_out (t - 1) * p.discharging_efficiency
      + x.flow_in (t - 1) * p.charging_efficiency) ∧
  (∀ t < nPeriods, t = nPeriods - 1 → x.soc t = p.initial_soc) ∧
  (∀ h < nPeriods, 2 * h + 1 < nPeriods → x.v (2 * h) = x.v (2 * h + 1))

/-- The feasible set of the intra-day model built by `optimize_intra_day`.
The day-ahead flows `daIn`, `daOut` enter only as fixed constants
(`self.flow_in_da_sol`, `self.flow_out_da_sol`): variable domains,
`energy_rule_id`, `upper_bound_total`, `lower_bound_total`,
`soc_bound_total`, `cycling_limit_total`, `soc_rule_total`, and
`final_soc_total`. There is no hourly-pairing constraint in this model. -/
def IDFeasible (p : BatteryParams) (nPeriods : ℕ) (daIn daOut : ℕ → ℚ)
    (x : StageVars) : Prop :=
  (∀ t < nPeriods, 0 ≤ x.flow_in t) ∧
  (∀ t < nPeriods, 0 ≤ x.flow_out t) ∧
  (∀ t < nPeriods, 0 ≤ x.soc t) ∧
  (∀ t < nPeriods, x.v t = x.flow_out t - x.flow_in t) ∧
  (∀ t < nPeriods, daOut t + x.flow_out t ≤ p.power) ∧
  (∀ t < nPeriods, daIn t + x.flow_in t ≤ p.power) ∧
  (∀ t < nPeriods, x.soc t ≤ p.capacity) ∧
  ((Finset.range nPeriods).sum (fun t => daOut t + x.flow_out t) ≤
    p.daily_cycles * p.capacity) ∧
  (∀ t < nPeriods, t = 0 → x.soc t = p.initial_soc) ∧
  (∀ t < nPeriods, 0 < t →
    x.soc t = x.soc (t - 1)
      - (daOut (t - 1) + x.flow_out (t - 1)) * p.discharging_efficiency
      + (daIn (t - 1) + x.flow_in (t - 1)) * p.charging_efficiency) ∧
  (∀ t < nPeriods, t = nPeriods - 1 → x.soc t = p.initial_soc)

instance (p : BatteryParams) (nPeriods : ℕ) (x : StageVars) :
    Decidable (DAFeasible p nPeriods x) := by
  unfold DAFeasible; infer_instance

instance (p : BatteryParams) (nPeriods : ℕ) (daIn daOut : ℕ → ℚ)
    (x : StageVars) : Decidable (IDFeasible p nPeriods daIn daOut x) := by
  unfold IDFeasible; infer_instance

/-- An assignment is optimal for the day-ahead LP when it is feasible and
dominates every feasible assignment in objective value (the contract of the
external LP Solving Engine on an `optimal` outcome). -/
def DAOptimal (p : BatteryParams) (nPeriods : ℕ) (prices : List ℚ)
    (x : StageVars) : Prop :=
  DAFeasible p nPeriods x ∧
  ∀ y, DAFeasible p nPeriods y →
    stageObjective prices nPeriods y ≤ stageObjective prices nPeriods x

/-- The scenario parameters of the flat-price test case:
`power=100, capacity=100, chargingEfficiency=0.85, dischargingEfficiency=1.0,
dailyCycles=2.0, initialSoc=25`. -/
def flatParams : BatteryParams :=
  { power := 100, capacity := 100, charging_efficiency := 17/20,
    discharging_efficiency := 1, daily_cycles := 2, initial_soc := 25 }

/-- Flat day-ahead price series for the scenario: 50 in all 48 periods. -/
def flatDaPrices : List ℚ := List.replicate 48 50

/-- The zero-trade assignment: no flows, constant soc at `initialSoc = 25`. -/
def zeroTradeVars : StageVars :=
  { flow_in := fun _ => 0, flow_out := fun _ => 0, v := fun _ => 0,
    soc := fun _ => 25 }

/-- Flat intra-day price series for the scenario: 45 in all 48 periods. -/
def flatIdPrices : List ℚ := List.replicate 48 45

/-- Python exceptions that `BatteryOptimizer` can surface: the bare
`Exception` raised by `optimize_intra_day`, the `RuntimeError` raised by the
appsi solver interface when no solution can be loaded, and the
`AttributeError` raised on access to an attribute that was never set. -/
inductive PyError where
  | exception : String → PyError
  | runtimeError : String → PyError
  | attributeError : String → PyError
deriving DecidableEq

/-- Outcome of the external LP Solving Engine on one model, per the
interface contract: an optimal variable assignment, or an infeasibility or
unboundedness signal. -/
inductive LpOutcome where
  | optimal : StageVars → LpOutcome
  | infeasible : LpOutcome
  | unbounded : LpOutcome

/-- The data determining the day-ahead model handed to the solver. -/
structure DayAheadLp where
  params : BatteryParams
  n_periods : ℕ
  prices : List ℚ

/-- The data determining the intra-day model handed to the solver; the
day-ahead flows appear here as fixed constant lists, not as variables. -/
structure IntraDayLp where
  params : BatteryParams
  n_periods : ℕ
  prices : List ℚ
  fixed_flow_in : List ℚ
  fixed_flow_out : List ℚ

/-- Message of the `RuntimeError` the appsi solver interface raises when the
termination condition is not optimal and no solution can be loaded. -/
def noSolutionMsg : String :=
  "A feasible solution was not found, so no solution can be loaded"

/-- `solver.solve(model)` with the default appsi configuration
(`load_solution = True`): on an optimal outcome the assignment is loaded
into the model's variables; otherwise a `RuntimeError` is raised, so the
stage never receives numeric values. The engine itself is the external
collaborator of the spec, abstracted as an arbitrary function into
`LpOutcome`. -/
def solveAndLoad (r : LpOutcome) : Except PyError StageVars :=
  match r with
  | .optimal x => .ok x
  | .infeasible => .error (.runtimeError noSolutionMsg)
  | .unbounded => .error (.runtimeError noSolutionMsg)

/-- The two price columns of the dataset, one row per settlement period. -/
structure PriceData where
  day_ahead : List ℚ
  intra_day : List ℚ
deriving DecidableEq

/-- The state of a `BatteryOptimizer` instance: constructor data plus the
solution attributes, which are absent (`none`) until the corresponding
stage has run. -/
structure BatteryOptimizer where
  params : BatteryParams
  da_prices : List ℚ
  id_prices : List ℚ
  n_periods : ℕ
  v_da_sol : Option (List ℚ) := none
  flow_in_da_sol : Option (List ℚ) := none
  flow_out_da_sol : Option (List ℚ) := none
  soc_da_sol : Option (List ℚ) := none
  da_obj_val : Option ℚ := none
  v_id_sol : Option (List ℚ) := none
  flow_in_id_sol : Option (List ℚ) := none
  flow_out_id_sol : Option (List ℚ) := none
  soc_total_sol : Option (List ℚ) := none
  id_obj_val : Option ℚ := none
deriving DecidableEq

/-- `BatteryOptimizer.__init__`: store the parameters unchanged, slice the
selected day's 48 settlement periods out of each price column (Python slice
semantics: out-of-range parts are silently dropped), and set the time grid
to `range(len(da_prices))`. No validation of any input is performed. -/
def BatteryOptimizer.init (data : PriceData) (day : ℕ) (p : BatteryParams) :
    BatteryOptimizer :=
  let da := (data.day_ahead.drop (day * 48)).take 48
  let id := (data.intra_day.drop (day * 48)).take 48
  { params := p, da_prices := da, id_prices := id, n_periods := da.length }

/-- Evaluate an assignment's per-period values into a Python list,
`[pyo.value(var[t]) for t in model.time]`. -/
def listOf (nPeriods : ℕ) (f : ℕ → ℚ) : List ℚ :=
  (List.range nPeriods).map f

/-- The day-ahead model constructed by `optimize_day_ahead` from the stored
parameters and prices, without any prior validation. -/
def buildDayAheadLp (o : BatteryOptimizer) : DayAheadLp :=
  { params := o.params, n_periods := o.n_periods, prices := o.da_prices }

/-- `optimize_day_ahead`: build the day-ahead model, hand it to the engine,
and on success store the solution lists and the objective value
`pyo.value(model.obj_da)` (the objective expression evaluated at the loaded
assignment). -/
def optimize_day_ahead (engine : DayAheadLp → LpOutcome)
    (o : BatteryOptimizer) : Except PyError BatteryOptimizer :=
  match solveAndLoad (engine (buildDayAheadLp o)) with
  | .error e => .error e
  | .ok x =>
      .ok { o with
        v_da_sol := some (listOf o.n_periods x.v),
        flow_in_da_sol := some (listOf o.n_periods x.flow_in),
        flow_out_da_sol := some (listOf o.n_periods x.flow_out),
        soc_da_sol := some (listOf o.n_periods x.soc),
        da_obj_val := some (stageObjective o.da_prices o.n_periods x) }

/-- Access of an optionally set attribute `self.<field>`; raises
`AttributeError` naming the field when it was never assigned. -/
def getAttr {α : Type} (x : Option α) (field : String) : Except PyError α :=
  match x with
  | some a => .ok a
  | none => .error (.attributeError field)

/-- The intra-day model constructed by `optimize_intra_day`: the stored
day-ahead flow solutions are embedded as fixed constants. -/
def buildIntraDayLp (o : BatteryOptimizer) : Except PyError IntraDayLp :=
  match getAttr o.flow_in_da_sol "flow_in_da_sol" with
  | .error e => .error e
  | .ok fin =>
      match getAttr o.flow_out_da_sol "flow_out_da_sol" with
      | .error e => .error e
      | .ok fout =>
          .ok { params := o.params, n_periods := o.n_periods,
                prices := o.id_prices,
                fixed_flow_in := fin, fixed_flow_out := fout }

/-- Message of the exception raised when intra-day optimization is invoked
before day-ahead optimization. -/
def sequencingMsg : String :=
  "Run day-ahead optimization before intra-day optimization."

/-- `optimize_intra_day`: first check `hasattr(self, 'v_da_sol')` and raise
an `Exception` if the day-ahead stage has not run; otherwise build the
intra-day model around the fixed day-ahead flows, solve it, and store the
intra-day solution lists and objective value. -/
def optimize_intra_day (engine : IntraDayLp → LpOutcome)
    (o : BatteryOptimizer) : Except PyError BatteryOptimizer :=
  match o.v_da_sol with
  | none => .error (.exception sequencingMsg)
  | some _ =>
      match buildIntraDayLp o with
      | .error e => .error e
      | .ok lp =>
          match solveAndLoad (engine lp) with
          | .error e => .error e
          | .ok x =>
              .ok { o with
                v_id_sol := some (listOf o.n_periods x.v),
                flow_in_id_sol := some (listOf o.n_periods x.flow_in),
                flow_out_id_sol := some (listOf o.n_periods x.flow_out),
                soc_total_sol := some (listOf o.n_periods x.soc),
                id_obj_val := some (stageObjective o.id_prices o.n_periods x) }

/-- The per-period ledger (the columns of the `DataFrame` returned by
`get_results`). The `soc_total` column is `none` exactly when the code's
`hasattr` fallback would fill the column with Python `None`. -/
structure ResultsLedger where
  settlement_period : List ℕ
  day_ahead_trade : List ℚ
  intra_day_trade : List ℚ
  day_ahead_price : List ℚ
  intra_day_price : List ℚ
  day_ahead_cashflow : List ℚ
  intra_day_cashflow : List ℚ
  total_cashflow : List ℚ
  soc_after_day_ahead : List ℚ
  soc_total : Option (List ℚ)
deriving DecidableEq

/-- `get_results`: compute the three cashflow lists (accessing `v_da_sol`,
then `v_id_sol`), assemble the `DataFrame` (accessing `soc_da_sol`, and
`soc_total_sol` behind the `hasattr` guard), and return it together with
`da_obj_val` and `id_obj_val`, in the source's attribute-access order. -/
def get_results (o : BatteryOptimizer) :
    Except PyError (ResultsLedger × ℚ × ℚ) :=
  match getAttr o.v_da_sol "v_da_sol" with
  | .error e => .error e
  | .ok vda =>
    let daCash := (List.range o.n_periods).map
      (fun t => vda.getD t 0 * o.da_prices.getD t 0)
    match getAttr o.v_id_sol "v_id_sol" with
    | .error e => .error e
    | .ok vid =>
      let idCash := (List.range o.n_periods).map
        (fun t => vid.getD t 0 * o.id_prices.getD t 0)
      let totCash := (List.range o.n_periods).map
        (fun t => daCash.getD t 0 + idCash.getD t 0)
      match getAttr o.soc_da_sol "soc_da_sol" with
      | .error e => .error e
      | .ok socDa =>
        let ledger : ResultsLedger :=
          { settlement_period := List.range o.n_periods,
            day_ahead_trade := vda,
            intra_day_trade := vid,
            day_ahead_price := o.da_prices,
            intra_day_price := o.id_prices,
            day_ahead_cashflow := daCash,
            intra_day_cashflow := idCash,
            total_cashflow := totCash,
            soc_after_day_ahead := socDa,
            soc_total := o.soc_total_sol }
        match getAttr o.da_obj_val "da_obj_val" with
        | .error e => .error e
        | .ok daObj =>
          match getAttr o.id_obj_val "id_obj_val" with
          | .error e => .error e
          | .ok idObj => .ok (ledger, daObj, idObj)

/-- States of a `BatteryOptimizer` instance reachable through the public
API: construction, then any sequence of (successful) stage calls with
arbitrary engine behaviour. -/
inductive Reachable : BatteryOptimizer → Prop where
  | init_state : ∀ data day p, Reachable (BatteryOptimizer.init data day p)
  | da_step : ∀ o engine o', Reachable o →
      optimize_day_ahead engine o = .ok o' → Reachable o'
  | id_step : ∀ o engine o', Reachable o →
      optimize_intra_day engine o = .ok o' → Reachable o'

/-- The zero function, used for absent fixed day-ahead flows. -/
def zeroFlow : ℕ → ℚ := fun _ => 0

/-- Charging flow of the exploit assignment: 10 MWh in periods 0 and 1. -/
def exploitFlowIn : ℕ → ℚ := fun t => if t ≤ 1 then 10 else 0

/-- Discharging flow of the exploit assignment: 17 MWh in periods 46, 47. -/
def exploitFlowOut : ℕ → ℚ := fun t => if 46 ≤ t then 17 else 0

/-- Net volume of the exploit assignment. -/
def exploitV : ℕ → ℚ := fun t => exploitFlowOut t - exploitFlowIn t

/-- SoC trajectory of the exploit assignment. -/
def exploitSoc : ℕ → ℚ := fun t =>
  if t = 0 then 25 else if t = 1 then 67/2 else if t ≤ 46 then 42 else 25

/-- A feasible day-ahead assignment for the flat-price scenario that makes
strictly positive revenue: charge 10 MWh in each of periods 0 and 1
(storing 8.5 MWh each), discharge the stored 17 MWh in period 46, and
discharge a further 17 MWh in period 47 — the final period, whose flows are
referenced by no SoC constraint of the model. -/
def exploitVars : StageVars :=
  { flow_in := exploitFlowIn, flow_out := exploitFlowOut,
    v := exploitV, soc := exploitSoc }

/-- Charging flow of the unpaired intra-day assignment: 10 MWh in period 0. -/
def idUnpairedFlowIn : ℕ → ℚ := fun t => if t = 0 then 10 else 0

/-- Discharging flow of the unpaired intra-day assignment: 8.5 MWh in
period 1. -/
def idUnpairedFlowOut : ℕ → ℚ := fun t => if t = 1 then 17/2 else 0

/-- Net volume of the unpaired intra-day assignment. -/
def idUnpairedV : ℕ → ℚ := fun t => idUnpairedFlowOut t - idUnpairedFlowIn t

/-- SoC trajectory of the unpaired intra-day assignment. -/
def idUnpairedSoc : ℕ → ℚ := fun t =>
  if t = 0 then 25 else if t = 1 then 67/2 else 25

/-- A feasible intra-day assignment (over zero day-ahead flows) whose net
volumes differ between the two half-hours of hour 0: charge 10 MWh in
period 0, discharge the stored 8.5 MWh in period 1. -/
def idUnpairedVars : StageVars :=
  { flow_in := idUnpairedFlowIn, flow_out := idUnpairedFlowOut,
    v := idUnpairedV, soc := idUnpairedSoc }

lemma zeroTrade_da_feasible : DAFeasible flatParams 48 zeroTradeVars := by
  unfold DAFeasible
  simp only [zeroTradeVars, flatParams]
  refine ⟨?_, ?_, ?_, ?_, ?_, ?_, ?_, ?_, ?_, ?_, ?_, ?_⟩
  · intro t ht; norm_num
  · intro t ht; norm_num
  · intro t ht; norm_num
  · intro t ht; norm_num
  · intro t ht; norm_num
  · intro t ht; norm_num
  · intro t ht; norm_num
  · norm_num
  · intro t ht h0; norm_num
  · intro t ht h0; norm_num
  · intro t ht h47; norm_num
  · intro h hh h2; norm_num

lemma zeroTrade_objective : stageObjective flatDaPrices 48 zeroTradeVars = 0 := by
  unfold stageObjective
  simp [zeroTradeVars]

lemma exploit_da_feasible : DAFeasible flatParams 48 exploitVars := by
  unfold DAFeasible
  simp only [exploitVars, exploitV, exploitFlowIn, exploitFlowOut, exploitSoc,
    flatParams]
  refine ⟨?_, ?_, ?_, ?_, ?_, ?_, ?_, ?_, ?_, ?_, ?_, ?_⟩
  · intro t ht; split <;> norm_num
  · intro t ht; split <;> norm_num
  · intro t ht; interval_cases t <;> norm_num
  · intro t ht; norm_num
  · intro t ht; split <;> norm_num
  · intro t ht; split <;> norm_num
  · intro t ht; interval_cases t <;> norm_num
  · norm_num [Finset.sum_range_succ]
  · intro t ht h0; subst h0; norm_num
  · intro t ht h0; interval_cases t <;> norm_num
  · intro t ht h47; subst h47; norm_num
  · intro h hh h2; interval_cases h <;> norm_num

lemma exploit_objective : stageObjective flatDaPrices 48 exploitVars = 700 := by
  unfold stageObjective
  simp only [exploitVars, exploitV, exploitFlowIn, exploitFlowOut, flatDaPrices]
  norm_num [Finset.sum_range_succ]

lemma idUnpaired_feasible :
    IDFeasible flatParams 48 zeroFlow zeroFlow idUnpairedVars := by
  unfold IDFeasible
  simp only [idUnpairedVars, idUnpairedV, idUnpairedFlowIn, idUnpairedFlowOut,
    idUnpairedSoc, flatParams, zeroFlow]
  refine ⟨?_, ?_, ?_, ?_, ?_, ?_, ?_, ?_, ?_, ?_, ?_⟩
  · intro t ht; split <;> norm_num
  · intro t ht; split <;> norm_num
  · intro t ht; interval_cases t <;> norm_num
  · intro t ht; norm_num
  · intro t ht; split <;> norm_num
  · intro t ht; split <;> norm_num
  · intro t ht; interval_cases t <;> norm_num
  · norm_num [Finset.sum_range_succ]
  · intro t ht h0; subst h0; norm_num
  · intro t ht h0; interval_cases t <;> norm_num
  · intro t ht h47; subst h47; norm_num

lemma zeroTrade_id_feasible :
    IDFeasible flatParams 48 zeroFlow zeroFlow zeroTradeVars := by
  unfold IDFeasible
  simp only [zeroTradeVars, flatParams, zeroFlow]
  refine ⟨?_, ?_, ?_, ?_, ?_, ?_, ?_, ?_, ?_, ?_, ?_⟩
  · intro t ht; norm_num
  · intro t ht; norm_num
  · intro t ht; norm_num
  · intro t ht; norm_num
  · intro t ht; norm_num
  · intro t ht; norm_num
  · intro t ht; norm_num
  · norm_num
  · intro t ht h0; norm_num
  · intro t ht h0; norm_num
  · intro t ht h47; norm_num

/-- C1: every feasible assignment of the day-ahead LP satisfies the SoC
recursion: `soc 0 = initialSoc`; for `0 < t < N`,
`soc t = soc (t-1) - flowOut (t-1) * dischargingEfficiency
+ flowIn (t-1) * chargingEfficiency`; and the last period's SoC equals
`initialSoc`. -/
theorem c1_day_ahead_soc_recursion (p : BatteryParams) (nPeriods : ℕ)
    (x : StageVars) (hN : 0 < nPeriods) (hfeas : DAFeasible p nPeriods x) :
    x.soc 0 = p.initial_soc ∧
    (∀ t < nPeriods, 0 < t →
      x.soc t = x.soc (t - 1) - x.flow_out (t - 1) * p.discharging_efficiency
        + x.flow_in (t - 1) * p.charging_efficiency) ∧
    x.soc (nPeriods - 1) = p.initial_soc := by
  obtain ⟨-, -, -, -, -, -, -, -, h9, h10, h11, -⟩ := hfeas
  exact ⟨h9 0 hN rfl, h10, h11 (nPeriods - 1) (by omega) rfl⟩

/-- Witness for C1 at the flat-price scenario's zero-trade assignment. -/
theorem c1_day_ahead_soc_recursion_witness :
    zeroTradeVars.soc 0 = flatParams.initial_soc ∧
    (∀ t < 48, 0 < t →
      zeroTradeVars.soc t = zeroTradeVars.soc (t - 1)
        - zeroTradeVars.flow_out (t - 1) * flatParams.discharging_efficiency
        + zeroTradeVars.flow_in (t - 1) * flatParams.charging_efficiency) ∧
    zeroTradeVars.soc (48 - 1) = flatParams.initial_soc :=
  c1_day_ahead_soc_recursion flatParams 48 zeroTradeVars (by norm_num)
    zeroTrade_da_feasible

/-- C2: in the intra-day LP the day-ahead flows are fixed constants (they
are parameters `daIn`, `daOut` of the feasible set, not components of the
assignment), and every feasible assignment satisfies the combined power
bounds, the combined cycling limit, and the combined SoC recursion with
`combinedSoc 0 = initialSoc` and combined terminal SoC `initialSoc`. -/
theorem c2_intra_day_combined_constraints (p : BatteryParams) (nPeriods : ℕ)
    (daIn daOut : ℕ → ℚ) (x : StageVars) (hN : 0 < nPeriods)
    (hfeas : IDFeasible p nPeriods daIn daOut x) :
    (∀ t < nPeriods, daOut t + x.flow_out t ≤ p.power) ∧
    (∀ t < nPeriods, daIn t + x.flow_in t ≤ p.power) ∧
    ((Finset.range nPeriods).sum (fun t => daOut t + x.flow_out t) ≤
      p.daily_cycles * p.capacity) ∧
    x.soc 0 = p.initial_soc ∧
    (∀ t < nPeriods, 0 < t →
      x.soc t = x.soc (t - 1)
        - (daOut (t - 1) + x.flow_out (t - 1)) * p.discharging_efficiency
        + (daIn (t - 1) + x.flow_in (t - 1)) * p.charging_efficiency) ∧
    x.soc (nPeriods - 1) = p.initial_soc := by
  obtain ⟨-, -, -, -, h5, h6, -, h8, h9, h10, h11⟩ := hfeas
  exact ⟨h5, h6, h8, h9 0 hN rfl, h10, h11 (nPeriods - 1) (by omega) rfl⟩

/-- Witness for C2 at the flat-price scenario's zero-trade assignment over
zero day-ahead flows. -/
theorem c2_intra_day_combined_constraints_witness :
    (∀ t < 48, zeroFlow t + zeroTradeVars.flow_out t ≤ flatParams.power) ∧
    (∀ t < 48, zeroFlow t + zeroTradeVars.flow_in t ≤ flatParams.power) ∧
    ((Finset.range 48).sum (fun t => zeroFlow t + zeroTradeVars.flow_out t) ≤
      flatParams.daily_cycles * flatParams.capacity) ∧
    zeroTradeVars.soc 0 = flatParams.initial_soc ∧
    (∀ t < 48, 0 < t →
      zeroTradeVars.soc t = zeroTradeVars.soc (t - 1)
        - (zeroFlow (t - 1) + zeroTradeVars.flow_out (t - 1))
          * flatParams.discharging_efficiency
        + (zeroFlow (t - 1) + zeroTradeVars.flow_in (t - 1))
          * flatParams.charging_efficiency) ∧
    zeroTradeVars.soc (48 - 1) = flatParams.initial_soc :=
  c2_intra_day_combined_constraints flatParams 48 zeroFlow zeroFlow
    zeroTradeVars (by norm_num) zeroTrade_id_feasible

/-- C6: every feasible day-ahead assignment pairs the net volumes of the two
half-hours of each hour whose second settlement period lies in the time
grid; the intra-day stage imposes no pairing — a feasible intra-day
assignment with different net volumes in periods 0 and 1 exists. -/
theorem c6_hourly_pairing_day_ahead_only (p : BatteryParams) (nPeriods : ℕ)
    (x : StageVars) (hfeas : DAFeasible p nPeriods x) :
    (∀ h, 2 * h + 1 < nPeriods → x.v (2 * h) = x.v (2 * h + 1)) ∧
    (∃ y, IDFeasible flatParams 48 zeroFlow zeroFlow y ∧ y.v 0 ≠ y.v 1) := by
  constructor
  · intro h hh
    exact hfeas.2.2.2.2.2.2.2.2.2.2.2 h (by omega) hh
  · refine ⟨idUnpairedVars, idUnpaired_feasible, ?_⟩
    norm_num [idUnpairedVars, idUnpairedV, idUnpairedFlowIn, idUnpairedFlowOut]

/-- Witness for C6 at the flat-price scenario's zero-trade assignment. -/
theorem c6_hourly_pairing_day_ahead_only_witness :
    (∀ h, 2 * h + 1 < 48 → zeroTradeVars.v (2 * h) = zeroTradeVars.v (2 * h + 1)) ∧
    (∃ y, IDFeasible flatParams 48 zeroFlow zeroFlow y ∧ y.v 0 ≠ y.v 1) :=
  c6_hourly_pairing_day_ahead_only flatParams 48 zeroTradeVars
    zeroTrade_da_feasible

/-- C7 (code bug): in the flat-price scenario
(`N = 48`, day-ahead price 50 everywhere, `power = 100`, `capacity = 100`,
`chargingEfficiency = 0.85`, `dischargingEfficiency = 1`,
`dailyCycles = 2`, `initialSoc = 25`) the day-ahead LP admits the feasible
assignment `exploitVars` with objective value 700 > 0, because the flows of
the final period appear in no SoC constraint; hence the zero-trade schedule
(objective 0) is not optimal and the optimal objective value is not 0. -/
theorem c7_flat_price_scenario_positive_revenue :
    DAFeasible flatParams 48 exploitVars ∧
    stageObjective flatDaPrices 48 exploitVars = 700 ∧
    stageObjective flatDaPrices 48 zeroTradeVars = 0 ∧
    ¬ DAOptimal flatParams 48 flatDaPrices zeroTradeVars := by
  refine ⟨exploit_da_feasible, exploit_objective, zeroTrade_objective, ?_⟩
  intro hopt
  have hle := hopt.2 exploitVars exploit_da_feasible
  rw [exploit_objective, zeroTrade_objective] at hle
  norm_num at hle

/-- A small two-period dataset used to instantiate the state machine. -/
def demoData : PriceData := { day_ahead := [50, 50], intra_day := [45, 45] }

/-- The freshly constructed optimizer over `demoData`, day 0. -/
def o0Demo : BatteryOptimizer := BatteryOptimizer.init demoData 0 flatParams

/-- A stub engine that always reports an optimal zero-trade assignment. -/
def constOptimalDaEngine : DayAheadLp → LpOutcome :=
  fun _ => .optimal zeroTradeVars

/-- The optimizer state after a successful day-ahead solve of `o0Demo` with
the zero-trade assignment loaded. -/
def odaDemo : BatteryOptimizer :=
  { o0Demo with
    v_da_sol := some (listOf o0Demo.n_periods zeroTradeVars.v),
    flow_in_da_sol := some (listOf o0Demo.n_periods zeroTradeVars.flow_in),
    flow_out_da_sol := some (listOf o0Demo.n_periods zeroTradeVars.flow_out),
    soc_da_sol := some (listOf o0Demo.n_periods zeroTradeVars.soc),
    da_obj_val := some (stageObjective o0Demo.da_prices o0Demo.n_periods
      zeroTradeVars) }

lemma odaDemo_step : optimize_day_ahead constOptimalDaEngine o0Demo = .ok odaDemo :=
  rfl

/-- The intra-day model built from `odaDemo`. -/
def lp2Demo : IntraDayLp :=
  { params := odaDemo.params, n_periods := odaDemo.n_periods,
    prices := odaDemo.id_prices,
    fixed_flow_in := listOf o0Demo.n_periods zeroTradeVars.flow_in,
    fixed_flow_out := listOf o0Demo.n_periods zeroTradeVars.flow_out }

lemma lp2Demo_build : buildIntraDayLp odaDemo = .ok lp2Demo := rfl

/-- C3: invoking `optimize_intra_day` on a state without a day-ahead
solution returns the sequencing exception, for every engine — never a
numeric result, and the intra-day computation does not run (the result does
not depend on the engine). -/
theorem c3_sequencing_violation (o : BatteryOptimizer)
    (engine : IntraDayLp → LpOutcome) (hnone : o.v_da_sol = none) :
    optimize_intra_day engine o = .error (.exception sequencingMsg) := by
  unfold optimize_intra_day
  rw [hnone]

/-- Witness for C3: a freshly constructed optimizer. -/
theorem c3_sequencing_violation_witness :
    optimize_intra_day (fun _ => .infeasible) o0Demo =
      .error (.exception sequencingMsg) :=
  c3_sequencing_violation o0Demo (fun _ => .infeasible) rfl

/-- C4: when the engine reports infeasibility for a stage's model, the stage
surfaces the named no-solution error (the `RuntimeError` raised on solution
loading), for both the day-ahead and the intra-day stage; it never returns
a numeric state. -/
theorem c4_infeasible_outcome (o1 : BatteryOptimizer)
    (e1 : DayAheadLp → LpOutcome) (o2 : BatteryOptimizer)
    (e2 : IntraDayLp → LpOutcome) (lp2 : IntraDayLp) (l : List ℚ)
    (h1 : e1 (buildDayAheadLp o1) = .infeasible)
    (h2 : o2.v_da_sol = some l)
    (h3 : buildIntraDayLp o2 = .ok lp2)
    (h4 : e2 lp2 = .infeasible) :
    optimize_day_ahead e1 o1 = .error (.runtimeError noSolutionMsg) ∧
    optimize_intra_day e2 o2 = .error (.runtimeError noSolutionMsg) := by
  constructor
  · unfold optimize_day_ahead
    rw [h1]
    rfl
  · unfold optimize_intra_day
    rw [h2]
    dsimp only
    rw [h3]
    dsimp only
    rw [h4]
    rfl

/-- Witness for C4: a fresh optimizer whose engine reports infeasible, and a
day-ahead-solved optimizer whose intra-day engine reports infeasible. -/
theorem c4_infeasible_outcome_witness :
    optimize_day_ahead (fun _ => .infeasible) o0Demo =
      .error (.runtimeError noSolutionMsg) ∧
    optimize_intra_day (fun _ => .infeasible) odaDemo =
      .error (.runtimeError noSolutionMsg) :=
  c4_infeasible_outcome o0Demo (fun _ => .infeasible) odaDemo
    (fun _ => .infeasible) lp2Demo (listOf o0Demo.n_periods zeroTradeVars.v)
    rfl rfl lp2Demo_build rfl

/-- Parameters outside their documented domains: negative power and a
charging efficiency above 1. -/
def badParams : BatteryParams :=
  { power := -5, capacity := 100, charging_efficiency := 2,
    discharging_efficiency := 1, daily_cycles := 2, initial_soc := 25 }

/-- The optimizer constructed (without complaint) from `badParams`. -/
def badOpt : BatteryOptimizer := BatteryOptimizer.init demoData 0 badParams

/-- The state after the day-ahead stage runs on `badOpt` with an engine
reporting an optimal zero-trade assignment. -/
def badOptDa : BatteryOptimizer :=
  { badOpt with
    v_da_sol := some (listOf badOpt.n_periods zeroTradeVars.v),
    flow_in_da_sol := some (listOf badOpt.n_periods zeroTradeVars.flow_in),
    flow_out_da_sol := some (listOf badOpt.n_periods zeroTradeVars.flow_out),
    soc_da_sol := some (listOf badOpt.n_periods zeroTradeVars.soc),
    da_obj_val := some (stageObjective badOpt.da_prices badOpt.n_periods
      zeroTradeVars) }

/-- Counterexample to C5: the constructor accepts parameters outside their
documented domain (negative power, charging efficiency 2 > 1) without
raising, the day-ahead LP is constructed from them, and the stage passes it
to the engine and returns a numeric state — nothing is rejected before LP
construction. -/
theorem c5_counterexample :
    badParams.power < 0 ∧ 1 < badParams.charging_efficiency ∧
    (BatteryOptimizer.init demoData 0 badParams).params = badParams ∧
    (buildDayAheadLp badOpt).params = badParams ∧
    optimize_day_ahead constOptimalDaEngine badOpt = .ok badOptDa := by
  refine ⟨?_, ?_, rfl, rfl, rfl⟩ <;> norm_num [badParams]

/-- C5 as amended: no input validation exists; the constructor stores any
parameters unchanged, and whenever the engine reports an optimal assignment
for the constructed model, the day-ahead stage returns a numeric state — so
the outcome is decided solely by the engine, for malformed inputs too. -/
theorem c5_no_validation (data : PriceData) (day : ℕ) (p : BatteryParams)
    (engine : DayAheadLp → LpOutcome) (x : StageVars)
    (hopt : engine (buildDayAheadLp (BatteryOptimizer.init data day p)) =
      .optimal x) :
    (BatteryOptimizer.init data day p).params = p ∧
    ∃ o', optimize_day_ahead engine (BatteryOptimizer.init data day p) =
      .ok o' := by
  refine ⟨rfl, ?_⟩
  unfold optimize_day_ahead
  rw [hopt]
  exact ⟨_, rfl⟩

/-- Witness for the amended C5 at the malformed parameters `badParams`. -/
theorem c5_no_validation_witness :
    (BatteryOptimizer.init demoData 0 badParams).params = badParams ∧
    ∃ o', optimize_day_ahead constOptimalDaEngine
      (BatteryOptimizer.init demoData 0 badParams) = .ok o' :=
  c5_no_validation demoData 0 badParams constOptimalDaEngine zeroTradeVars rfl

lemma getD_map_range (f : ℕ → ℚ) (n t : ℕ) (ht : t < n) :
    ((List.range n).map f).getD t 0 = f t := by
  rw [List.getD_eq_getElem?_getD, List.getElem?_map, List.getElem?_range ht]
  rfl

/-- A stub engine reporting an optimal zero-trade intra-day assignment. -/
def constOptimalIdEngine : IntraDayLp → LpOutcome :=
  fun _ => .optimal zeroTradeVars

/-- The optimizer state after both stages have solved over `demoData` with
the zero-trade assignment loaded in each. -/
def oidDemo : BatteryOptimizer :=
  { odaDemo with
    v_id_sol := some (listOf o0Demo.n_periods zeroTradeVars.v),
    flow_in_id_sol := some (listOf o0Demo.n_periods zeroTradeVars.flow_in),
    flow_out_id_sol := some (listOf o0Demo.n_periods zeroTradeVars.flow_out),
    soc_total_sol := some (listOf o0Demo.n_periods zeroTradeVars.soc),
    id_obj_val := some (stageObjective o0Demo.id_prices o0Demo.n_periods
      zeroTradeVars) }

lemma oidDemo_step :
    optimize_intra_day constOptimalIdEngine odaDemo = .ok oidDemo := rfl

/-- C8: on a state carrying both stage solutions, `get_results` returns a
ledger whose per-period day-ahead and intra-day cashflows are
`netVolume[t] * price[t]`, whose total cashflow is their per-period sum,
which carries both solutions' columns unchanged, together with the two
stored stage objective values; the state itself is read, never written. -/
theorem c8_results_ledger (o : BatteryOptimizer)
    (vda vid socda soctot : List ℚ) (daObj idObj : ℚ)
    (h1 : o.v_da_sol = some vda) (h2 : o.v_id_sol = some vid)
    (h3 : o.soc_da_sol = some socda) (h4 : o.soc_total_sol = some soctot)
    (h5 : o.da_obj_val = some daObj) (h6 : o.id_obj_val = some idObj) :
    ∃ ledger, get_results o = .ok (ledger, daObj, idObj) ∧
      (∀ t < o.n_periods, ledger.day_ahead_cashflow.getD t 0 =
        vda.getD t 0 * o.da_prices.getD t 0) ∧
      (∀ t < o.n_periods, ledger.intra_day_cashflow.getD t 0 =
        vid.getD t 0 * o.id_prices.getD t 0) ∧
      (∀ t < o.n_periods, ledger.total_cashflow.getD t 0 =
        ledger.day_ahead_cashflow.getD t 0 +
        ledger.intra_day_cashflow.getD t 0) ∧
      ledger.day_ahead_trade = vda ∧ ledger.intra_day_trade = vid ∧
      ledger.day_ahead_price = o.da_prices ∧
      ledger.intra_day_price = o.id_prices ∧
      ledger.soc_after_day_ahead = socda ∧
      ledger.soc_total = some soctot := by
  unfold get_results
  rw [h1, h2, h3, h5, h6]
  dsimp only [getAttr]
  rw [h4]
  refine ⟨_, rfl, ?_, ?_, ?_, rfl, rfl, rfl, rfl, rfl, rfl⟩
  · intro t ht
    exact getD_map_range _ _ _ ht
  · intro t ht
    exact getD_map_range _ _ _ ht
  · intro t ht
    rw [getD_map_range _ _ _ ht]

/-- Witness for C8 at the two-stage demo state `oidDemo`. -/
theorem c8_results_ledger_witness :
    ∃ ledger, get_results oidDemo =
      .ok (ledger,
        stageObjective o0Demo.da_prices o0Demo.n_periods zeroTradeVars,
        stageObjective o0Demo.id_prices o0Demo.n_periods zeroTradeVars) ∧
      (∀ t < oidDemo.n_periods, ledger.day_ahead_cashflow.getD t 0 =
        (listOf o0Demo.n_periods zeroTradeVars.v).getD t 0 *
        oidDemo.da_prices.getD t 0) ∧
      (∀ t < oidDemo.n_periods, ledger.intra_day_cashflow.getD t 0 =
        (listOf o0Demo.n_periods zeroTradeVars.v).getD t 0 *
        oidDemo.id_prices.getD t 0) ∧
      (∀ t < oidDemo.n_periods, ledger.total_cashflow.getD t 0 =
        ledger.day_ahead_cashflow.getD t 0 +
        ledger.intra_day_cashflow.getD t 0) ∧
      ledger.day_ahead_trade = listOf o0Demo.n_periods zeroTradeVars.v ∧
      ledger.intra_day_trade = listOf o0Demo.n_periods zeroTradeVars.v ∧
      ledger.day_ahead_price = oidDemo.da_prices ∧
      ledger.intra_day_price = oidDemo.id_prices ∧
      ledger.soc_after_day_ahead = listOf o0Demo.n_periods zeroTradeVars.soc ∧
      ledger.soc_total = some (listOf o0Demo.n_periods zeroTradeVars.soc) :=
  c8_results_ledger oidDemo
    (listOf o0Demo.n_periods zeroTradeVars.v)
    (listOf o0Demo.n_periods zeroTradeVars.v)
    (listOf o0Demo.n_periods zeroTradeVars.soc)
    (listOf o0Demo.n_periods zeroTradeVars.soc)
    (stageObjective o0Demo.da_prices o0Demo.n_periods zeroTradeVars)
    (stageObjective o0Demo.id_prices o0Demo.n_periods zeroTradeVars)
    rfl rfl rfl rfl rfl rfl

/-- C9: two solves of the same day-ahead stage with engines each returning
an optimal assignment (the engine contract) store equal objective values:
the optimum of the LP is unique in objective value. -/
theorem c9_resolve_objective_equal (o o1 o2 : BatteryOptimizer)
    (e1 e2 : DayAheadLp → LpOutcome) (x y : StageVars)
    (h1 : e1 (buildDayAheadLp o) = .optimal x)
    (h2 : e2 (buildDayAheadLp o) = .optimal y)
    (hx : DAOptimal o.params o.n_periods o.da_prices x)
    (hy : DAOptimal o.params o.n_periods o.da_prices y)
    (r1 : optimize_day_ahead e1 o = .ok o1)
    (r2 : optimize_day_ahead e2 o = .ok o2) :
    o1.da_obj_val = o2.da_obj_val := by
  unfold optimize_day_ahead at r1 r2
  rw [h1] at r1
  rw [h2] at r2
  dsimp only [solveAndLoad] at r1 r2
  injection r1 with r1
  injection r2 with r2
  rw [← r1, ← r2]
  dsimp only
  rw [le_antisymm (hy.2 x hx.1) (hx.2 y hy.1)]

/-- Single-period dataset with zero prices, where every feasible assignment
is optimal (all objective values are 0). -/
def zeroPriceData : PriceData := { day_ahead := [0], intra_day := [0] }

/-- The optimizer over `zeroPriceData`, day 0 (one settlement period). -/
def oZero : BatteryOptimizer := BatteryOptimizer.init zeroPriceData 0 flatParams

/-- A second feasible single-period assignment: charge and discharge 5 MWh
simultaneously in period 0 for a net volume of zero. -/
def soloVars : StageVars :=
  { flow_in := fun t => if t = 0 then 5 else 0,
    flow_out := fun t => if t = 0 then 5 else 0,
    v := fun _ => 0, soc := fun _ => 25 }

lemma zeroPrice_stageObjective (x : StageVars) : stageObjective [0] 1 x = 0 := by
  unfold stageObjective
  rw [Finset.sum_range_one]
  norm_num

lemma daOptimal_zeroPrice (x : StageVars) (hx : DAFeasible flatParams 1 x) :
    DAOptimal flatParams 1 [0] x :=
  ⟨hx, fun y _ => by rw [zeroPrice_stageObjective, zeroPrice_stageObjective]⟩

lemma zeroTrade_da_feasible_one : DAFeasible flatParams 1 zeroTradeVars := by
  unfold DAFeasible
  simp only [zeroTradeVars, flatParams]
  refine ⟨?_, ?_, ?_, ?_, ?_, ?_, ?_, ?_, ?_, ?_, ?_, ?_⟩ <;> norm_num

lemma soloVars_da_feasible_one : DAFeasible flatParams 1 soloVars := by
  unfold DAFeasible
  simp only [soloVars, flatParams]
  refine ⟨?_, ?_, ?_, ?_, ?_, ?_, ?_, ?_, ?_, ?_, ?_, ?_⟩
  · intro t ht; split <;> norm_num
  · intro t ht; split <;> norm_num
  · intro t ht; norm_num
  · intro t ht; interval_cases t; norm_num
  · intro t ht; split <;> norm_num
  · intro t ht; split <;> norm_num
  · intro t ht; norm_num
  · norm_num
  · intro t ht h0; norm_num
  · intro t ht h0; omega
  · intro t ht h0; norm_num
  · intro h hh h1; omega

/-- The state after solving `oZero` with the zero-trade assignment. -/
def oZero1 : BatteryOptimizer :=
  { oZero with
    v_da_sol := some (listOf oZero.n_periods zeroTradeVars.v),
    flow_in_da_sol := some (listOf oZero.n_periods zeroTradeVars.flow_in),
    flow_out_da_sol := some (listOf oZero.n_periods zeroTradeVars.flow_out),
    soc_da_sol := some (listOf oZero.n_periods zeroTradeVars.soc),
    da_obj_val := some (stageObjective oZero.da_prices oZero.n_periods
      zeroTradeVars) }

/-- The state after solving `oZero` with the simultaneous-flow assignment. -/
def oZero2 : BatteryOptimizer :=
  { oZero with
    v_da_sol := some (listOf oZero.n_periods soloVars.v),
    flow_in_da_sol := some (listOf oZero.n_periods soloVars.flow_in),
    flow_out_da_sol := some (listOf oZero.n_periods soloVars.flow_out),
    soc_da_sol := some (listOf oZero.n_periods soloVars.soc),
    da_obj_val := some (stageObjective oZero.da_prices oZero.n_periods
      soloVars) }

/-- Witness for C9: two solves of `oZero` with engines returning the two
different optimal assignments store equal objective values. -/
theorem c9_resolve_objective_equal_witness :
    oZero1.da_obj_val = oZero2.da_obj_val :=
  c9_resolve_objective_equal oZero oZero1 oZero2
    (fun _ => .optimal zeroTradeVars) (fun _ => .optimal soloVars)
    zeroTradeVars soloVars rfl rfl
    (daOptimal_zeroPrice zeroTradeVars zeroTrade_da_feasible_one)
    (daOptimal_zeroPrice soloVars soloVars_da_feasible_one)
    rfl rfl

lemma optimize_day_ahead_id_fields (e : DayAheadLp → LpOutcome)
    (o o' : BatteryOptimizer) (h : optimize_day_ahead e o = .ok o') :
    o'.v_id_sol = o.v_id_sol ∧ o'.soc_total_sol = o.soc_total_sol := by
  unfold optimize_day_ahead at h
  cases hE : solveAndLoad (e (buildDayAheadLp o)) with
  | error err => rw [hE] at h; simp at h
  | ok x =>
      rw [hE] at h
      injection h with h
      rw [← h]
      exact ⟨rfl, rfl⟩

lemma optimize_intra_day_sets_id_fields (e : IntraDayLp → LpOutcome)
    (o o' : BatteryOptimizer) (h : optimize_intra_day e o = .ok o') :
    o'.v_id_sol.isSome ∧ o'.soc_total_sol.isSome := by
  unfold optimize_intra_day at h
  cases hv : o.v_da_sol with
  | none => rw [hv] at h; simp at h
  | some l =>
      rw [hv] at h
      dsimp only at h
      cases hb : buildIntraDayLp o with
      | error err => rw [hb] at h; simp at h
      | ok lp =>
          rw [hb] at h
          dsimp only at h
          cases hE : solveAndLoad (e lp) with
          | error err => rw [hE] at h; simp at h
          | ok x =>
              rw [hE] at h
              injection h with h
              rw [← h]
              exact ⟨rfl, rfl⟩

lemma reachable_soc_total_of_v_id (o : BatteryOptimizer) (h : Reachable o) :
    o.v_id_sol.isSome → o.soc_total_sol.isSome := by
  induction h with
  | init_state data day p =>
      intro hv
      simp [BatteryOptimizer.init] at hv
  | da_step o e o' hr hstep ih =>
      obtain ⟨h1, h2⟩ := optimize_day_ahead_id_fields e o o' hstep
      rw [h1, h2]
      exact ih
  | id_step o e o' hr hstep ih =>
      intro _
      exact (optimize_intra_day_sets_id_fields e o o' hstep).2

/-- C10: on every API-reachable state that has a day-ahead solution but no
intra-day solution, `get_results` raises the `AttributeError` for
`v_id_sol` (the intra-day cashflow computation) instead of returning a
ledger; and on every API-reachable state, a returned ledger always carries
an actual combined-SoC column — the `None` fallback for the `SOC Total`
column is unreachable. -/
theorem c10_missing_intra_day_attribute (o : BatteryOptimizer)
    (hreach : Reachable o) :
    (o.v_da_sol.isSome → o.v_id_sol = none →
      get_results o = .error (.attributeError "v_id_sol")) ∧
    (∀ r, get_results o = .ok r → r.1.soc_total.isSome) := by
  constructor
  · intro hda hid
    obtain ⟨l, hl⟩ := Option.isSome_iff_exists.mp hda
    unfold get_results
    rw [hl, hid]
    rfl
  · intro r hr
    unfold get_results at hr
    cases hda : o.v_da_sol with
    | none => rw [hda] at hr; simp [getAttr] at hr
    | some vda =>
      rw [hda] at hr
      dsimp only [getAttr] at hr
      cases hid : o.v_id_sol with
      | none => rw [hid] at hr; simp [getAttr] at hr
      | some vid =>
        rw [hid] at hr
        dsimp only [getAttr] at hr
        cases hsoc : o.soc_da_sol with
        | none => rw [hsoc] at hr; simp [getAttr] at hr
        | some socda =>
          rw [hsoc] at hr
          dsimp only [getAttr] at hr
          cases hdo : o.da_obj_val with
          | none => rw [hdo] at hr; simp [getAttr] at hr
          | some daObj =>
            rw [hdo] at hr
            dsimp only [getAttr] at hr
            cases hio : o.id_obj_val with
            | none => rw [hio] at hr; simp [getAttr] at hr
            | some idObj =>
              rw [hio] at hr
              dsimp only [getAttr] at hr
              injection hr with hr
              rw [← hr]
              dsimp only
              exact reachable_soc_total_of_v_id o hreach (by rw [hid]; rfl)

/-- Witness for C10 at the day-ahead-only demo state `odaDemo`, reachable
from construction by one day-ahead solve. -/
theorem c10_missing_intra_day_attribute_witness :
    get_results odaDemo = .error (.attributeError "v_id_sol") ∧
    (∀ r, get_results odaDemo = .ok r → r.1.soc_total.isSome) := by
  have h := c10_missing_intra_day_attribute odaDemo
    (Reachable.da_step o0Demo constOptimalDaEngine odaDemo
      (Reachable.init_state demoData 0 flatParams) odaDemo_step)
  exact ⟨h.1 rfl rfl, h.2⟩

end BatteryTrading
